import Mathlib

/-!
Verification of the SiteLedger construction expense tracker: a shallow
embedding of the dashboard aggregation engine (`src/hooks/useDashboardData.ts`)
and of the client-side form validation for inserting transactions
(`handleCreateTransaction` in the project detail screen) and projects
(`handleCreateProject` in `src/app/(tabs)/projects.tsx`).

Modelling choices:
- Monetary amounts are embedded as `ℚ` (the source uses JS numbers; all
  claims are about exact arithmetic on the recorded amounts).
- Calendar dates are embedded as `Int` day numbers (days since 1970-01-01);
  `dateToString` models `Date.prototype.toISOString().split('T')[0]`, the
  civil Gregorian calendar rendering as a `YYYY-MM-DD` string. The JS
  expression `date.setDate(date.getDate() - i)` is calendar-day arithmetic,
  i.e. subtraction of `i` on the day number.
- The asynchronous gateway reads are embedded by passing the fetched rows as
  arguments; `fetchData` takes the transaction query as a function argument
  and additionally returns a `Bool` recording whether that query was invoked.
-/

/-- The `type` column of a transaction row: `'credit' | 'debit'`. -/
inductive TxType where
  | credit
  | debit
deriving DecidableEq, Repr

/-- A row of the `transactions` table
(`Database.public.Tables.transactions.Row`). -/
structure Transaction where
  id : String
  project_id : String
  type : TxType
  amount : ℚ
  description : String
  transaction_date : String
  category : String
  created_at : String
deriving DecidableEq, Repr

/-- A row of the `projects` table (`Database.public.Tables.projects.Row`). -/
structure Project where
  id : String
  user_id : String
  name : String
  location : String
  project_type : String
  base_contract_amount : ℚ
  created_at : String
  updated_at : String
deriving DecidableEq, Repr

/-- The `ProjectSummary` interface of `useDashboardData.ts`. -/
structure ProjectSummary where
  projectId : String
  projectName : String
  totalCredits : ℚ
  totalDebits : ℚ
  profit : ℚ
deriving DecidableEq, Repr

/-- One entry of `dailyStats`: `{ date: string; credits: number; debits: number }`. -/
structure DailyStat where
  date : String
  credits : ℚ
  debits : ℚ
deriving DecidableEq, Repr

/-- One entry of `weeklyStats`: `{ week: string; credits: number; debits: number }`. -/
structure WeeklyStat where
  week : String
  credits : ℚ
  debits : ℚ
deriving DecidableEq, Repr

/-- One entry of `monthlyStats`: `{ month: string; credits: number; debits: number }`. -/
structure MonthlyStat where
  month : String
  credits : ℚ
  debits : ℚ
deriving DecidableEq, Repr

/-- The `DashboardData` interface of `useDashboardData.ts`. -/
structure DashboardData where
  totalPortfolioBalance : ℚ
  totalProjects : Nat
  projectsSummary : List ProjectSummary
  dailyStats : List DailyStat
  weeklyStats : List WeeklyStat
  monthlyStats : List MonthlyStat
deriving DecidableEq, Repr

/-- `useDashboardData.ts` lines 72-92: the per-project summary built inside
`projects.map`. Filters the fetched transactions down to the project's own
rows, sums the credit amounts and the debit amounts with `reduce`, and sets
`profit = totalCredits - totalDebits`. -/
def computeProjectSummary (project : Project) (transactions : List Transaction) :
    ProjectSummary :=
  let projectTransactions := transactions.filter
    (fun t => decide (t.project_id = project.id))
  let totalCredits := (projectTransactions.filter
    (fun t => decide (t.type = TxType.credit))).foldl (fun sum t => sum + t.amount) 0
  let totalDebits := (projectTransactions.filter
    (fun t => decide (t.type = TxType.debit))).foldl (fun sum t => sum + t.amount) 0
  { projectId := project.id
    projectName := project.name
    totalCredits := totalCredits
    totalDebits := totalDebits
    profit := totalCredits - totalDebits }

/-- `useDashboardData.ts` line 72: `projects.map((project) => ...)`. -/
def projectsSummary (projects : List Project) (transactions : List Transaction) :
    List ProjectSummary :=
  projects.map (fun project => computeProjectSummary project transactions)

/-- `useDashboardData.ts` lines 94-97:
`projectsSummary.reduce((sum, p) => sum + p.profit, 0)`. -/
def totalPortfolioBalance (projects : List Project)
    (transactions : List Transaction) : ℚ :=
  (projectsSummary projects transactions).foldl (fun sum p => sum + p.profit) 0

/-- Civil-from-days conversion of a day number (days since 1970-01-01) to a
Gregorian `(year, month, day)` triple, as performed internally by
`Date.prototype.toISOString`. -/
def civilFromDays (z0 : Int) : Int × Int × Int :=
  let z := z0 + 719468
  let era := Int.fdiv z 146097
  let doe := z - era * 146097
  let yoe := Int.fdiv (doe - Int.fdiv doe 1460 + Int.fdiv doe 36524 - Int.fdiv doe 146096) 365
  let y := yoe + era * 400
  let doy := doe - (365 * yoe + Int.fdiv yoe 4 - Int.fdiv yoe 100)
  let mp := Int.fdiv (5 * doy + 2) 153
  let d := doy - Int.fdiv (153 * mp + 2) 5 + 1
  let m := mp + (if mp < 10 then 3 else -9)
  (y + (if m ≤ 2 then 1 else 0), m, d)

/-- Zero-pad the decimal rendering of a nonnegative integer to `w` digits. -/
def zpad (w : Nat) (n : Int) : String :=
  let s := toString n.toNat
  String.mk (List.replicate (w - s.length) '0') ++ s

/-- `date.toISOString().split('T')[0]`: the `YYYY-MM-DD` rendering of the
civil date of day number `z`. -/
def dateToString (z : Int) : String :=
  let c := civilFromDays z
  zpad 4 c.1 ++ "-" ++ zpad 2 c.2.1 ++ "-" ++ zpad 2 c.2.2

/-- `useDashboardData.ts` lines 99-104: the 7 date strings
`[today - 6 .. today]`, built as `Array.from({length: 7}, (_, i) => ...)` on
`now - i` days and then reversed. `refDay` is the day number of `now`. -/
def last7Days (refDay : Int) : List String :=
  ((List.range 7).map (fun (i : Nat) => dateToString (refDay - (i : Int)))).reverse

/-- `useDashboardData.ts` lines 106-120, body of `last7Days.map`: the stats
of one date string — transactions whose `transaction_date` equals the date
exactly, split by type and summed with `reduce`. -/
def dayStat (transactions : List Transaction) (date : String) : DailyStat :=
  let dayTransactions := transactions.filter
    (fun t => decide (t.transaction_date = date))
  let credits := (dayTransactions.filter
    (fun t => decide (t.type = TxType.credit))).foldl (fun sum t => sum + t.amount) 0
  let debits := (dayTransactions.filter
    (fun t => decide (t.type = TxType.debit))).foldl (fun sum t => sum + t.amount) 0
  { date := date, credits := credits, debits := debits }

/-- `useDashboardData.ts` lines 106-120: `last7Days.map((date) => ...)`. -/
def dailyStats (transactions : List Transaction) (refDay : Int) : List DailyStat :=
  (last7Days refDay).map (dayStat transactions)

/-- `useDashboardData.ts` lines 122-129: the snapshot assembled by `setData`
in the non-empty branch. `weeklyStats` and `monthlyStats` are always `[]`. -/
def computeSnapshot (projects : List Project) (transactions : List Transaction)
    (refDay : Int) : DashboardData :=
  { totalPortfolioBalance := totalPortfolioBalance projects transactions
    totalProjects := projects.length
    projectsSummary := projectsSummary projects transactions
    dailyStats := dailyStats transactions refDay
    weeklyStats := []
    monthlyStats := [] }

/-- `useDashboardData.ts` lines 51-58: the zeroed snapshot installed when
the user has no projects. -/
def emptySnapshot : DashboardData :=
  { totalPortfolioBalance := 0
    totalProjects := 0
    projectsSummary := []
    dailyStats := []
    weeklyStats := []
    monthlyStats := [] }

/-- `useDashboardData.ts` lines 50-129, `fetchData` after the project query:
given the fetched projects, short-circuit to the zeroed snapshot when the
list is empty, otherwise fetch the transactions for `projects.map(p => p.id)`
and compute the snapshot. The returned `Bool` records whether the
transaction query was issued. -/
def fetchData (projects : List Project)
    (fetchTransactions : List String → List Transaction) (refDay : Int) :
    DashboardData × Bool :=
  if projects.length = 0 then
    (emptySnapshot, false)
  else
    let projectIds := projects.map (fun p => p.id)
    let transactions := fetchTransactions projectIds
    (computeSnapshot projects transactions refDay, true)

/-- The signed effect of a transaction on profit: `+amount` for a credit,
`-amount` for a debit (computed by consumers, never stored). -/
def signed (t : Transaction) : ℚ :=
  match t.type with
  | TxType.credit => t.amount
  | TxType.debit => -t.amount

/-- The value of the digit list `ds` read in base 10 (the digits of a JS
numeric literal). -/
def digitsToNat (ds : List Char) : Nat :=
  ds.foldl (fun n c => 10 * n + (c.toNat - 48)) 0

/-- Modelled JS builtin: `parseFloat` applied to the text of a decimal form
field. Parses an optional sign, integer digits, and an optional `.` followed
by fraction digits; yields `none` exactly when JS yields `NaN` (no digits at
all). Exponent suffixes and leading whitespace do not occur in the observed
inputs and are not modelled. -/
def parseFloat (s : String) : Option ℚ :=
  let cs := s.toList
  let sign : ℚ := match cs with
    | '-' :: _ => -1
    | _ => 1
  let cs1 : List Char := match cs with
    | '-' :: rest => rest
    | '+' :: rest => rest
    | _ => cs
  let intDigits := cs1.takeWhile Char.isDigit
  let rest1 := cs1.dropWhile Char.isDigit
  let fracDigits : List Char := match rest1 with
    | '.' :: r => r.takeWhile Char.isDigit
    | _ => []
  if intDigits.isEmpty && fracDigits.isEmpty then
    none
  else
    some (sign * ((digitsToNat intDigits : ℚ) +
      (digitsToNat fracDigits : ℚ) / (10 : ℚ) ^ fracDigits.length))

/-- The transaction form state of the project detail screen
(`formData` with `amount`, `description`, `category`, `transaction_date`,
all text fields). -/
structure TransactionFormData where
  amount : String
  description : String
  category : String
  transaction_date : String
deriving DecidableEq, Repr

/-- The payload of `supabase.from('transactions').insert({...})`. -/
structure TransactionInsert where
  project_id : String
  type : TxType
  amount : ℚ
  description : String
  category : String
  transaction_date : String
deriving DecidableEq, Repr

/-- Outcome of `handleCreateTransaction` up to the gateway boundary: either a
client-side validation alert with its message (no insert issued), or the
insert payload submitted to the gateway. -/
inductive TxInsertOutcome where
  | validationError (message : String)
  | submitted (payload : TransactionInsert)
deriving DecidableEq, Repr

/-- `handleCreateTransaction` (project detail screen, lines 180-218):
`!formData.amount || !formData.description` rejects empty fields; then
`parseFloat` with `isNaN(amount) || amount <= 0` rejects non-numeric or
non-positive amounts; otherwise the insert payload is submitted. -/
def handleCreateTransaction (projectId : String) (transactionType : TxType)
    (formData : TransactionFormData) : TxInsertOutcome :=
  if formData.amount = "" ∨ formData.description = "" then
    TxInsertOutcome.validationError "Please fill in amount and description"
  else
    match parseFloat formData.amount with
    | none => TxInsertOutcome.validationError "Please enter a valid amount"
    | some amount =>
      if amount ≤ 0 then
        TxInsertOutcome.validationError "Please enter a valid amount"
      else
        TxInsertOutcome.submitted
          { project_id := projectId
            type := transactionType
            amount := amount
            description := formData.description
            category := formData.category
            transaction_date := formData.transaction_date }

/-- The project form state of `projects.tsx` (`formData` with `name`,
`location`, `project_type`, `base_contract_amount`, all text fields). -/
structure ProjectFormData where
  name : String
  location : String
  project_type : String
  base_contract_amount : String
deriving DecidableEq, Repr

/-- The payload of `supabase.from('projects').insert({...})`. -/
structure ProjectInsert where
  user_id : String
  name : String
  location : String
  project_type : String
  base_contract_amount : ℚ
deriving DecidableEq, Repr

/-- Outcome of `handleCreateProject` up to the gateway boundary. -/
inductive ProjectInsertOutcome where
  | validationError (message : String)
  | submitted (payload : ProjectInsert)
deriving DecidableEq, Repr

/-- `handleCreateProject` (`src/app/(tabs)/projects.tsx` lines 78-115):
rejects when any of the four text fields is empty, then applies `parseFloat`
with `isNaN(amount) || amount < 0` (zero is accepted), otherwise submits the
insert payload. -/
def handleCreateProject (userId : String) (formData : ProjectFormData) :
    ProjectInsertOutcome :=
  if formData.name = "" ∨ formData.location = "" ∨ formData.project_type = "" ∨
      formData.base_contract_amount = "" then
    ProjectInsertOutcome.validationError "Please fill in all fields"
  else
    match parseFloat formData.base_contract_amount with
    | none => ProjectInsertOutcome.validationError "Please enter a valid contract amount"
    | some amount =>
      if amount < 0 then
        ProjectInsertOutcome.validationError "Please enter a valid contract amount"
      else
        ProjectInsertOutcome.submitted
          { user_id := userId
            name := formData.name
            location := formData.location
            project_type := formData.project_type
            base_contract_amount := amount }

/-- Renamed from `signed` to avoid clashing with library names: the signed
effect of a transaction on profit, `+amount` for credit, `-amount` for debit. -/
def signedAmount (t : Transaction) : ℚ :=
  match t.type with
  | TxType.credit => t.amount
  | TxType.debit => -t.amount

theorem foldl_add_amount (l : List Transaction) (a : ℚ) :
    l.foldl (fun sum t => sum + t.amount) a = a + (l.map Transaction.amount).sum := by
  induction l generalizing a with
  | nil => simp
  | cons t ts ih =>
    rw [List.foldl_cons, ih, List.map_cons, List.sum_cons]
    ring

theorem foldl_add_profit (l : List ProjectSummary) (a : ℚ) :
    l.foldl (fun sum p => sum + p.profit) a = a + (l.map ProjectSummary.profit).sum := by
  induction l generalizing a with
  | nil => simp
  | cons p ps ih =>
    rw [List.foldl_cons, ih, List.map_cons, List.sum_cons]
    ring

theorem filter_decide_and {α : Type} (p q : α → Prop) [DecidablePred p] [DecidablePred q]
    (l : List α) :
    (l.filter (fun a => decide (p a))).filter (fun a => decide (q a))
      = l.filter (fun a => decide (p a ∧ q a)) := by
  induction l with
  | nil => rfl
  | cons a l ih =>
    by_cases hp : p a <;> by_cases hq : q a <;>
      simp [List.filter_cons, hp, hq, ih]

theorem sum_map_add {α : Type} (l : List α) (f g : α → ℚ) :
    (l.map (fun a => f a + g a)).sum = (l.map f).sum + (l.map g).sum := by
  induction l with
  | nil => simp
  | cons a l ih =>
    rw [List.map_cons, List.sum_cons, ih, List.map_cons, List.sum_cons,
      List.map_cons, List.sum_cons]
    ring

theorem totalCredits_eq (project : Project) (transactions : List Transaction) :
    (computeProjectSummary project transactions).totalCredits
      = ((transactions.filter
          (fun t => decide (t.project_id = project.id ∧ t.type = TxType.credit))).map
            Transaction.amount).sum := by
  simp only [computeProjectSummary, filter_decide_and, foldl_add_amount, zero_add]

theorem totalDebits_eq (project : Project) (transactions : List Transaction) :
    (computeProjectSummary project transactions).totalDebits
      = ((transactions.filter
          (fun t => decide (t.project_id = project.id ∧ t.type = TxType.debit))).map
            Transaction.amount).sum := by
  simp only [computeProjectSummary, filter_decide_and, foldl_add_amount, zero_add]

theorem profit_eq (project : Project) (transactions : List Transaction) :
    (computeProjectSummary project transactions).profit
      = (computeProjectSummary project transactions).totalCredits
        - (computeProjectSummary project transactions).totalDebits := rfl

theorem signedAmount_credit {t : Transaction} (h : t.type = TxType.credit) :
    signedAmount t = t.amount := by
  simp [signedAmount, h]

theorem signedAmount_debit {t : Transaction} (h : t.type = TxType.debit) :
    signedAmount t = -t.amount := by
  simp [signedAmount, h]

theorem sum_credit_sub_debit (pred : Transaction → Prop) [DecidablePred pred]
    (transactions : List Transaction) :
    ((transactions.filter (fun t => decide (pred t ∧ t.type = TxType.credit))).map
        Transaction.amount).sum
    - ((transactions.filter (fun t => decide (pred t ∧ t.type = TxType.debit))).map
        Transaction.amount).sum
      = (transactions.map (fun t => if pred t then signedAmount t else 0)).sum := by
  induction transactions with
  | nil => simp
  | cons t ts ih =>
    by_cases hp : pred t
    · cases htype : t.type
      · simp only [List.filter_cons, List.map_cons, List.sum_cons, hp, htype,
          decide_eq_true_eq, true_and, reduceCtorEq, decide_True, decide_False,
          if_true, if_false, if_pos hp, signedAmount_credit htype]
        rw [← ih]
        ring
      · simp only [List.filter_cons, List.map_cons, List.sum_cons, hp, htype,
          decide_eq_true_eq, true_and, reduceCtorEq, decide_True, decide_False,
          if_true, if_false, if_pos hp, signedAmount_debit htype]
        rw [← ih]
        ring
    · simp only [List.filter_cons, List.map_cons, List.sum_cons, hp, false_and,
        decide_False, if_false, if_neg hp, zero_add]
      exact ih

theorem profit_closed (project : Project) (transactions : List Transaction) :
    (computeProjectSummary project transactions).profit
      = (transactions.map
          (fun t => if t.project_id = project.id then signedAmount t else 0)).sum := by
  rw [profit_eq, totalCredits_eq, totalDebits_eq,
    sum_credit_sub_debit (fun t => t.project_id = project.id) transactions]

theorem balance_eq_sum_profit (projects : List Project) (transactions : List Transaction) :
    totalPortfolioBalance projects transactions
      = ((projectsSummary projects transactions).map ProjectSummary.profit).sum := by
  unfold totalPortfolioBalance
  rw [foldl_add_profit, zero_add]

theorem balance_eq_double_sum (projects : List Project) (transactions : List Transaction) :
    totalPortfolioBalance projects transactions
      = (projects.map (fun p => (transactions.map
          (fun t => if t.project_id = p.id then signedAmount t else 0)).sum)).sum := by
  rw [balance_eq_sum_profit]
  unfold projectsSummary
  rw [List.map_map]
  congr 1
  apply List.map_congr_left
  intro p _
  exact profit_closed p transactions

theorem sum_map_ite_id (projects : List Project) (pid : String) (c : ℚ)
    (hnd : (projects.map Project.id).Nodup) (hmem : pid ∈ projects.map Project.id) :
    (projects.map (fun p => if pid = p.id then c else 0)).sum = c := by
  induction projects with
  | nil => simp at hmem
  | cons p ps ih =>
    rw [List.map_cons, List.nodup_cons] at hnd
    rw [List.map_cons] at hmem
    rw [List.map_cons, List.sum_cons]
    by_cases h : pid = p.id
    · rw [if_pos h]
      have hz : (ps.map (fun q => if pid = q.id then c else 0)).sum = 0 := by
        apply List.sum_eq_zero
        intro x hx
        rcases List.mem_map.mp hx with ⟨q, hq, rfl⟩
        have hne : pid ≠ q.id := by
          intro hpq
          apply hnd.1
          rw [← h, hpq]
          exact List.mem_map_of_mem Project.id hq
        rw [if_neg hne]
      rw [hz, add_zero]
    · rw [if_neg h, zero_add]
      rcases List.mem_cons.mp hmem with h1 | h2
      · exact absurd h1 h
      · exact ih hnd.2 h2

theorem double_sum_signed (projects : List Project) (transactions : List Transaction)
    (hnd : (projects.map Project.id).Nodup)
    (hcov : ∀ t ∈ transactions, t.project_id ∈ projects.map Project.id) :
    (projects.map (fun p => (transactions.map
        (fun t => if t.project_id = p.id then signedAmount t else 0)).sum)).sum
      = (transactions.map signedAmount).sum := by
  induction transactions with
  | nil => simp
  | cons t ts ih =>
    have hA : (projects.map (fun p => (((t :: ts)).map
          (fun u => if u.project_id = p.id then signedAmount u else 0)).sum)).sum
        = (projects.map (fun p => if t.project_id = p.id then signedAmount t else 0)).sum
          + (projects.map (fun p => (ts.map
              (fun u => if u.project_id = p.id then signedAmount u else 0)).sum)).sum := by
      simp only [List.map_cons, List.sum_cons]
      exact sum_map_add projects
        (fun p => if t.project_id = p.id then signedAmount t else 0)
        (fun p => (ts.map (fun u => if u.project_id = p.id then signedAmount u else 0)).sum)
    rw [hA, sum_map_ite_id projects t.project_id (signedAmount t) hnd
        (hcov t (List.mem_cons_self t ts)),
      ih (fun u hu => hcov u (List.mem_cons_of_mem t hu)),
      List.map_cons, List.sum_cons]

theorem signed_sum_eq (transactions : List Transaction) :
    ((transactions.filter (fun t => decide (t.type = TxType.credit))).map
        Transaction.amount).sum
    - ((transactions.filter (fun t => decide (t.type = TxType.debit))).map
        Transaction.amount).sum
      = (transactions.map signedAmount).sum := by
  induction transactions with
  | nil => simp
  | cons t ts ih =>
    cases htype : t.type
    · simp only [List.filter_cons, List.map_cons, List.sum_cons, htype,
        decide_eq_true_eq, reduceCtorEq, decide_True, decide_False, if_true, if_false,
        signedAmount_credit htype]
      rw [← ih]
      ring
    · simp only [List.filter_cons, List.map_cons, List.sum_cons, htype,
        decide_eq_true_eq, reduceCtorEq, decide_True, decide_False, if_true, if_false,
        signedAmount_debit htype]
      rw [← ih]
      ring

theorem last7Days_eq (refDay : Int) :
    last7Days refDay
      = [dateToString (refDay - 6), dateToString (refDay - 5), dateToString (refDay - 4),
         dateToString (refDay - 3), dateToString (refDay - 2), dateToString (refDay - 1),
         dateToString refDay] := by
  have h : List.range 7 = [0, 1, 2, 3, 4, 5, 6] := rfl
  unfold last7Days
  rw [h]
  simp only [List.map_cons, List.map_nil, List.reverse_cons, List.reverse_nil,
    List.nil_append, List.cons_append]
  norm_num

theorem dailyStats_map_date (transactions : List Transaction) (refDay : Int) :
    (dailyStats transactions refDay).map DailyStat.date = last7Days refDay := by
  unfold dailyStats
  rw [List.map_map]
  have h : DailyStat.date ∘ dayStat transactions = fun d => d := rfl
  rw [h, List.map_id']

theorem dayStat_credits_eq (transactions : List Transaction) (date : String) :
    (dayStat transactions date).credits
      = ((transactions.filter
          (fun t => decide (t.transaction_date = date ∧ t.type = TxType.credit))).map
            Transaction.amount).sum := by
  simp only [dayStat, filter_decide_and, foldl_add_amount, zero_add]

theorem dayStat_debits_eq (transactions : List Transaction) (date : String) :
    (dayStat transactions date).debits
      = ((transactions.filter
          (fun t => decide (t.transaction_date = date ∧ t.type = TxType.debit))).map
            Transaction.amount).sum := by
  simp only [dayStat, filter_decide_and, foldl_add_amount, zero_add]

theorem dayStat_zero (transactions : List Transaction) (date : String)
    (h : ∀ t ∈ transactions, t.transaction_date ≠ date) :
    (dayStat transactions date).credits = 0 ∧ (dayStat transactions date).debits = 0 := by
  have hnil : transactions.filter (fun t => decide (t.transaction_date = date)) = [] := by
    apply List.filter_eq_nil_iff.mpr
    intro t ht
    simp only [decide_eq_true_eq]
    exact h t ht
  constructor <;> simp [dayStat, hnil]

theorem dayStat_cons_skip (transactions : List Transaction) (t : Transaction) (date : String)
    (h : t.transaction_date ≠ date) :
    dayStat (t :: transactions) date = dayStat transactions date := by
  simp [dayStat, List.filter_cons, h]

theorem sum_filter_amount_nonneg (l : List Transaction) (p : Transaction → Bool)
    (h : ∀ t ∈ l, 0 ≤ t.amount) :
    0 ≤ ((l.filter p).map Transaction.amount).sum := by
  apply List.sum_nonneg
  intro x hx
  rcases List.mem_map.mp hx with ⟨t, ht, rfl⟩
  exact h t (List.mem_of_mem_filter ht)

/-- Whether a transaction insert attempt ended in a client-side validation
alert (in which case no insert command reached the gateway). -/
def TxInsertOutcome.isError : TxInsertOutcome → Bool
  | TxInsertOutcome.validationError _ => true
  | TxInsertOutcome.submitted _ => false

/-- Whether a project insert attempt ended in a client-side validation
alert (in which case no insert command reached the gateway). -/
def ProjectInsertOutcome.isError : ProjectInsertOutcome → Bool
  | ProjectInsertOutcome.validationError _ => true
  | ProjectInsertOutcome.submitted _ => false

/-- A concrete project row used to instantiate theorems on explicit inputs. -/
def sampleProject : Project :=
  { id := "p1"
    user_id := "u1"
    name := "Downtown Office"
    location := "Pune"
    project_type := "commercial"
    base_contract_amount := 50000
    created_at := "2026-01-01T00:00:00Z"
    updated_at := "2026-01-01T00:00:00Z" }

/-- A concrete credit transaction of `sampleProject`, dated 2026-10-11
(day number 20737). -/
def sampleTransaction : Transaction :=
  { id := "t1"
    project_id := "p1"
    type := TxType.credit
    amount := 5000
    description := "Advance payment"
    transaction_date := "2026-10-11"
    category := "Income"
    created_at := "2026-10-11T00:00:00Z" }

/-- A concrete transaction of `sampleProject` dated far outside any 7-day
window anchored near 2026 (used for the out-of-window claims). -/
def oldTransaction : Transaction :=
  { id := "t2"
    project_id := "p1"
    type := TxType.debit
    amount := 300
    description := "Cement"
    transaction_date := "2020-01-01"
    category := "Materials"
    created_at := "2020-01-01T00:00:00Z" }

/-- C1: for every project and transaction list, the summary is computed from
exactly the transactions whose `project_id` matches the project:
`totalCredits` is the sum of amounts of matching credit transactions,
`totalDebits` the sum of amounts of matching debit transactions,
`profit = totalCredits - totalDebits`, and a project with no matching
transaction yields `(0, 0, 0)` rather than an error. -/
theorem C1_computeProjectSummary_correct (project : Project)
    (transactions : List Transaction) :
    (computeProjectSummary project transactions).totalCredits
      = ((transactions.filter
          (fun t => decide (t.project_id = project.id ∧ t.type = TxType.credit))).map
            Transaction.amount).sum
    ∧ (computeProjectSummary project transactions).totalDebits
      = ((transactions.filter
          (fun t => decide (t.project_id = project.id ∧ t.type = TxType.debit))).map
            Transaction.amount).sum
    ∧ (computeProjectSummary project transactions).profit
      = (computeProjectSummary project transactions).totalCredits
        - (computeProjectSummary project transactions).totalDebits
    ∧ ((∀ t ∈ transactions, t.project_id ≠ project.id) →
        (computeProjectSummary project transactions).totalCredits = 0
        ∧ (computeProjectSummary project transactions).totalDebits = 0
        ∧ (computeProjectSummary project transactions).profit = 0) := by
  refine ⟨totalCredits_eq project transactions, totalDebits_eq project transactions,
    profit_eq project transactions, fun h => ?_⟩
  have hc : transactions.filter
      (fun t => decide (t.project_id = project.id ∧ t.type = TxType.credit)) = [] := by
    apply List.filter_eq_nil_iff.mpr
    intro t ht
    simp only [decide_eq_true_eq]
    intro hcontra
    exact h t ht hcontra.1
  have hd : transactions.filter
      (fun t => decide (t.project_id = project.id ∧ t.type = TxType.debit)) = [] := by
    apply List.filter_eq_nil_iff.mpr
    intro t ht
    simp only [decide_eq_true_eq]
    intro hcontra
    exact h t ht hcontra.1
  have h1 : (computeProjectSummary project transactions).totalCredits = 0 := by
    rw [totalCredits_eq, hc]; rfl
  have h2 : (computeProjectSummary project transactions).totalDebits = 0 := by
    rw [totalDebits_eq, hd]; rfl
  refine ⟨h1, h2, ?_⟩
  rw [profit_eq, h1, h2, sub_zero]

/-- Witness for C1: a project with zero matching transactions yields the
all-zero summary. -/
theorem C1_computeProjectSummary_correct_witness :
    (computeProjectSummary sampleProject []).totalCredits = 0
    ∧ (computeProjectSummary sampleProject []).totalDebits = 0
    ∧ (computeProjectSummary sampleProject []).profit = 0 :=
  (C1_computeProjectSummary_correct sampleProject []).2.2.2
    (fun t ht => absurd ht (List.not_mem_nil t))

/-- C2 (amended): `totalPortfolioBalance` always equals the sum of `profit`
over `projectsSummary`; and when the projects' identifiers are pairwise
distinct and every transaction's project identifier occurs among them, it
also equals the global sum of credit amounts minus the global sum of debit
amounts. (Distinctness is necessary: see the counterexample theorem.) -/
theorem C2_totalPortfolioBalance_correct (projects : List Project)
    (transactions : List Transaction) :
    totalPortfolioBalance projects transactions
        = ((projectsSummary projects transactions).map ProjectSummary.profit).sum
    ∧ ((projects.map Project.id).Nodup →
        (∀ t ∈ transactions, t.project_id ∈ projects.map Project.id) →
        totalPortfolioBalance projects transactions
          = ((transactions.filter (fun t => decide (t.type = TxType.credit))).map
              Transaction.amount).sum
            - ((transactions.filter (fun t => decide (t.type = TxType.debit))).map
                Transaction.amount).sum) := by
  refine ⟨balance_eq_sum_profit projects transactions, fun hnd hcov => ?_⟩
  rw [balance_eq_double_sum, double_sum_signed projects transactions hnd hcov]
  exact (signed_sum_eq transactions).symm

/-- Witness for C2: one project, one credit transaction of amount 5000; the
portfolio balance equals global credits minus global debits. -/
theorem C2_totalPortfolioBalance_correct_witness :
    totalPortfolioBalance [sampleProject] [sampleTransaction]
      = (([sampleTransaction].filter (fun t => decide (t.type = TxType.credit))).map
          Transaction.amount).sum
        - (([sampleTransaction].filter (fun t => decide (t.type = TxType.debit))).map
            Transaction.amount).sum :=
  (C2_totalPortfolioBalance_correct [sampleProject] [sampleTransaction]).2
    (by decide) (by decide)

/-- Counterexample to C2 as stated: the claim quantifies over every list of
projects, but with a duplicated project entry (the same identifier "p1"
occurring twice) and one credit transaction of amount 5000 on "p1", every
transaction's project identifier occurs among the projects, yet the sum of
per-project profits is 10000 while global credits minus global debits is
5000. -/
theorem C2_totalPortfolioBalance_closure_cex :
    sampleTransaction.project_id ∈ [sampleProject, sampleProject].map Project.id
    ∧ totalPortfolioBalance [sampleProject, sampleProject] [sampleTransaction]
        ≠ (([sampleTransaction].filter (fun t => decide (t.type = TxType.credit))).map
            Transaction.amount).sum
          - (([sampleTransaction].filter (fun t => decide (t.type = TxType.debit))).map
              Transaction.amount).sum := by
  refine ⟨by decide, ?_⟩
  have h1 : totalPortfolioBalance [sampleProject, sampleProject] [sampleTransaction]
      = 10000 := by
    rw [balance_eq_double_sum]
    norm_num [sampleProject, sampleTransaction, signedAmount]
  have h2 : (([sampleTransaction].filter (fun t => decide (t.type = TxType.credit))).map
        Transaction.amount).sum
      - (([sampleTransaction].filter (fun t => decide (t.type = TxType.debit))).map
          Transaction.amount).sum = 5000 := by
    have hne : TxType.credit ≠ TxType.debit := by decide
    norm_num [sampleTransaction, List.filter_cons, if_neg hne]
  rw [h1, h2]
  norm_num

/-- C3: for every transaction list and reference day, `dailyStats` returns
exactly 7 entries; entry `i` carries the date string of calendar day
`refDay - 6 + i`, so the dates ascend strictly with consecutive entries one
calendar day apart and the last entry's date is the reference date; an entry
whose date matches no transaction carries `credits = 0` and `debits = 0`
rather than being omitted. -/
theorem C3_dailyStats_window (transactions : List Transaction) (refDay : Int) :
    (dailyStats transactions refDay).length = 7
    ∧ (dailyStats transactions refDay).map DailyStat.date
        = (List.range 7).map (fun (i : Nat) => dateToString (refDay - 6 + (i : Int)))
    ∧ ((dailyStats transactions refDay).map DailyStat.date).getLast?
        = some (dateToString refDay)
    ∧ ∀ s ∈ dailyStats transactions refDay,
        (∀ t ∈ transactions, t.transaction_date ≠ s.date) →
          s.credits = 0 ∧ s.debits = 0 := by
  have hrange : List.range 7 = [0, 1, 2, 3, 4, 5, 6] := rfl
  refine ⟨?_, ?_, ?_, ?_⟩
  · unfold dailyStats last7Days
    simp
  · rw [dailyStats_map_date, last7Days_eq, hrange]
    simp only [List.map_cons, List.map_nil]
    norm_num
    refine ⟨?_, ?_, ?_, ?_, ?_⟩ <;> (congr 1; ring)
  · rw [dailyStats_map_date, last7Days_eq]
    rfl
  · intro s hs h
    rcases List.mem_map.mp hs with ⟨d, hd, rfl⟩
    exact dayStat_zero transactions d h

/-- Witness for C3: with no transactions and reference day 20737
(2026-10-11) the stats still have 7 entries and the reference-day entry is
all zero. -/
theorem C3_dailyStats_window_witness :
    (dailyStats [] 20737).length = 7
    ∧ (dayStat ([] : List Transaction) (dateToString 20737)).credits = 0
    ∧ (dayStat ([] : List Transaction) (dateToString 20737)).debits = 0 := by
  have h := C3_dailyStats_window [] 20737
  have hmem : dayStat ([] : List Transaction) (dateToString 20737) ∈ dailyStats [] 20737 :=
    List.mem_map_of_mem (dayStat []) (by decide)
  have hz := h.2.2.2 _ hmem (fun t ht => absurd ht (List.not_mem_nil t))
  exact ⟨h.1, hz.1, hz.2⟩

/-- C4: with an empty project list, `fetchData` short-circuits to the
all-zero snapshot (`totalPortfolioBalance = 0`, `totalProjects = 0`,
`projectsSummary = []`, `dailyStats = []`) and the transaction query is
never issued (the returned flag is `false`, and the result does not depend
on the transaction-fetching function at all). -/
theorem C4_fetchData_empty (fetchTransactions : List String → List Transaction)
    (refDay : Int) :
    fetchData [] fetchTransactions refDay
      = ({ totalPortfolioBalance := 0
           totalProjects := 0
           projectsSummary := []
           dailyStats := []
           weeklyStats := []
           monthlyStats := [] }, false) := rfl

/-- C5: the snapshot produced by `fetchData` has `totalProjects` equal to
the number of projects, and `projectsSummary` has exactly one entry per
project, in the order of the project list, each carrying that project's
identifier — including in the empty short-circuit branch. -/
theorem C5_snapshot_projects (projects : List Project)
    (fetchTransactions : List String → List Transaction) (refDay : Int) :
    ((fetchData projects fetchTransactions refDay).1).totalProjects = projects.length
    ∧ ((fetchData projects fetchTransactions refDay).1).projectsSummary.length
        = projects.length
    ∧ ((fetchData projects fetchTransactions refDay).1).projectsSummary.map
        ProjectSummary.projectId = projects.map Project.id := by
  by_cases h : projects.length = 0
  · have hempty : projects = [] := List.length_eq_zero.mp h
    subst hempty
    exact ⟨rfl, rfl, rfl⟩
  · unfold fetchData
    rw [if_neg h]
    refine ⟨rfl, ?_, ?_⟩
    · simp [computeSnapshot, projectsSummary]
    · show (projectsSummary projects
          (fetchTransactions (projects.map (fun p => p.id)))).map
            ProjectSummary.projectId = projects.map Project.id
      unfold projectsSummary
      rw [List.map_map]
      rfl

/-- C6: the aggregation is deterministic — identical projects, identical
fetched transactions and identical reference date produce identical
snapshots; the embedding has no other inputs (no hidden mutable or random
state). -/
theorem C6_fetchData_deterministic (projects1 projects2 : List Project)
    (fetch1 fetch2 : List String → List Transaction) (refDay1 refDay2 : Int)
    (hp : projects1 = projects2) (hf : fetch1 = fetch2) (hr : refDay1 = refDay2) :
    fetchData projects1 fetch1 refDay1 = fetchData projects2 fetch2 refDay2 := by
  rw [hp, hf, hr]

/-- Witness for C6: two runs on the same concrete inputs agree. -/
theorem C6_fetchData_deterministic_witness :
    fetchData [sampleProject] (fun _ => [sampleTransaction]) 20737
      = fetchData [sampleProject] (fun _ => [sampleTransaction]) 20737 :=
  C6_fetchData_deterministic [sampleProject] [sampleProject]
    (fun _ => [sampleTransaction]) (fun _ => [sampleTransaction]) 20737 20737
    rfl rfl rfl

/-- C7: `handleCreateTransaction` validates client-side before any
submission: whenever the amount field is empty, fails to parse as a number,
or parses to a value not strictly greater than 0 (for example "-5"), or the
description field is empty, the outcome is a validation alert and no insert
command reaches the gateway. -/
theorem C7_handleCreateTransaction_validates (projectId : String)
    (transactionType : TxType) (formData : TransactionFormData)
    (h : formData.amount = "" ∨ formData.description = ""
        ∨ parseFloat formData.amount = none
        ∨ ∃ a, parseFloat formData.amount = some a ∧ a ≤ 0) :
    (handleCreateTransaction projectId transactionType formData).isError = true := by
  unfold handleCreateTransaction
  by_cases hempty : formData.amount = "" ∨ formData.description = ""
  · rw [if_pos hempty]
    rfl
  · rw [if_neg hempty]
    rcases h with h1 | h1 | h1 | ⟨a, ha, hle⟩
    · exact absurd (Or.inl h1) hempty
    · exact absurd (Or.inr h1) hempty
    · rw [h1]
      rfl
    · rw [ha]
      simp only [if_pos hle]
      rfl

/-- Witness for C7: a transaction form with amount "-5" fails validation
before reaching the gateway. -/
theorem C7_handleCreateTransaction_validates_witness :
    (parseFloat "-5" = some (-5) ∧ ((-5 : ℚ) ≤ 0))
    ∧ (handleCreateTransaction "p1" TxType.debit
        { amount := "-5", description := "Materials purchase", category := "",
          transaction_date := "2026-10-11" }).isError = true := by
  have hpf : parseFloat "-5" = some (-5) := by
    have h5 : ('5').isDigit = true := rfl
    have h5n : ('5').toNat = 53 := rfl
    norm_num [parseFloat, digitsToNat, List.takeWhile, List.dropWhile, h5, h5n]
  refine ⟨⟨hpf, by norm_num⟩, ?_⟩
  exact C7_handleCreateTransaction_validates "p1" TxType.debit
    { amount := "-5", description := "Materials purchase", category := "",
      transaction_date := "2026-10-11" }
    (Or.inr (Or.inr (Or.inr ⟨-5, hpf, by norm_num⟩)))

/-- C8: `handleCreateProject` validates client-side before any submission:
whenever name, location, project type, or the contract-amount field is
empty, or the contract amount fails to parse as a number or parses negative,
the outcome is a validation alert and no insert command reaches the
gateway; a well-formed form whose amount parses to a value that is at least
0 (in particular exactly 0) is submitted. -/
theorem C8_handleCreateProject_validates (userId : String)
    (formData : ProjectFormData) :
    ((formData.name = "" ∨ formData.location = "" ∨ formData.project_type = ""
        ∨ formData.base_contract_amount = ""
        ∨ parseFloat formData.base_contract_amount = none
        ∨ ∃ a, parseFloat formData.base_contract_amount = some a ∧ a < 0) →
      (handleCreateProject userId formData).isError = true)
    ∧ (∀ a : ℚ, formData.name ≠ "" → formData.location ≠ "" →
        formData.project_type ≠ "" → formData.base_contract_amount ≠ "" →
        parseFloat formData.base_contract_amount = some a → 0 ≤ a →
        handleCreateProject userId formData
          = ProjectInsertOutcome.submitted
              { user_id := userId
                name := formData.name
                location := formData.location
                project_type := formData.project_type
                base_contract_amount := a }) := by
  constructor
  · intro h
    unfold handleCreateProject
    by_cases hempty : formData.name = "" ∨ formData.location = ""
        ∨ formData.project_type = "" ∨ formData.base_contract_amount = ""
    · rw [if_pos hempty]
      rfl
    · rw [if_neg hempty]
      rcases h with h1 | h1 | h1 | h1 | h1 | ⟨a, ha, hlt⟩
      · exact absurd (Or.inl h1) hempty
      · exact absurd (Or.inr (Or.inl h1)) hempty
      · exact absurd (Or.inr (Or.inr (Or.inl h1))) hempty
      · exact absurd (Or.inr (Or.inr (Or.inr h1))) hempty
      · rw [h1]
        rfl
      · rw [ha]
        simp only [if_pos hlt]
        rfl
  · intro a h1 h2 h3 h4 ha h0
    unfold handleCreateProject
    rw [if_neg ?hne, ha]
    case hne => rintro (h | h | h | h) <;> contradiction
    simp only [if_neg (not_lt.mpr h0)]

/-- Witness for C8: a project form with contract amount "0" is accepted and
submitted with `base_contract_amount = 0`. -/
theorem C8_handleCreateProject_validates_witness :
    (parseFloat "0" = some 0 ∧ ((0 : ℚ) ≤ 0))
    ∧ handleCreateProject "u1"
        { name := "Mall", location := "Pune", project_type := "commercial",
          base_contract_amount := "0" }
      = ProjectInsertOutcome.submitted
          { user_id := "u1", name := "Mall", location := "Pune",
            project_type := "commercial", base_contract_amount := 0 } := by
  have hpf : parseFloat "0" = some 0 := by
    have h0 : ('0').isDigit = true := rfl
    have h0n : ('0').toNat = 48 := rfl
    norm_num [parseFloat, digitsToNat, List.takeWhile, List.dropWhile, h0, h0n]
  refine ⟨⟨hpf, le_refl 0⟩, ?_⟩
  exact (C8_handleCreateProject_validates "u1"
    { name := "Mall", location := "Pune", project_type := "commercial",
      base_contract_amount := "0" }).2 0
    (by decide) (by decide) (by decide) (by decide) hpf (le_refl 0)

/-- C9 (implicit): when every transaction amount is nonnegative, every
summary's `totalCredits` and `totalDebits` and every daily stat's `credits`
and `debits` in the computed snapshot are nonnegative (only `profit` and
`totalPortfolioBalance` can be negative). -/
theorem C9_snapshot_nonneg (projects : List Project) (transactions : List Transaction)
    (refDay : Int) (h : ∀ t ∈ transactions, 0 ≤ t.amount) :
    (∀ s ∈ (computeSnapshot projects transactions refDay).projectsSummary,
        0 ≤ s.totalCredits ∧ 0 ≤ s.totalDebits)
    ∧ ∀ d ∈ (computeSnapshot projects transactions refDay).dailyStats,
        0 ≤ d.credits ∧ 0 ≤ d.debits := by
  constructor
  · intro s hs
    have hs2 : s ∈ projectsSummary projects transactions := hs
    rcases List.mem_map.mp hs2 with ⟨p, hp, rfl⟩
    constructor
    · rw [totalCredits_eq]
      exact sum_filter_amount_nonneg transactions _ h
    · rw [totalDebits_eq]
      exact sum_filter_amount_nonneg transactions _ h
  · intro d hd
    have hd2 : d ∈ dailyStats transactions refDay := hd
    rcases List.mem_map.mp hd2 with ⟨ds, hds, rfl⟩
    constructor
    · rw [dayStat_credits_eq]
      exact sum_filter_amount_nonneg transactions _ h
    · rw [dayStat_debits_eq]
      exact sum_filter_amount_nonneg transactions _ h

/-- Witness for C9: with the sample credit transaction of amount 5000 the
per-project sums are nonnegative. -/
theorem C9_snapshot_nonneg_witness :
    0 ≤ (computeProjectSummary sampleProject [sampleTransaction]).totalCredits
    ∧ 0 ≤ (computeProjectSummary sampleProject [sampleTransaction]).totalDebits := by
  have hamt : ∀ t ∈ [sampleTransaction], (0 : ℚ) ≤ t.amount := by
    intro t ht
    rw [List.mem_singleton] at ht
    subst ht
    norm_num [sampleTransaction]
  have hmem : computeProjectSummary sampleProject [sampleTransaction]
      ∈ (computeSnapshot [sampleProject] [sampleTransaction] 20737).projectsSummary :=
    List.mem_singleton.mpr rfl
  exact (C9_snapshot_nonneg [sampleProject] [sampleTransaction] 20737 hamt).1 _ hmem

/-- C10 (implicit): a transaction is counted in a `dailyStats` entry exactly
when its `transaction_date` string equals that entry's generated date
string; a transaction whose date string is not among the 7 generated window
strings (including any other format) changes no `dailyStats` entry, while it
still contributes its signed amount to its project's summary profit and to
`totalPortfolioBalance`. -/
theorem C10_dailyStats_exact_date_match (transactions : List Transaction)
    (refDay : Int) (t : Transaction) (projects : List Project) :
    (∀ s ∈ dailyStats transactions refDay,
        s.credits = ((transactions.filter
            (fun u => decide (u.transaction_date = s.date ∧ u.type = TxType.credit))).map
              Transaction.amount).sum
        ∧ s.debits = ((transactions.filter
            (fun u => decide (u.transaction_date = s.date ∧ u.type = TxType.debit))).map
              Transaction.amount).sum)
    ∧ (t.transaction_date ∉ last7Days refDay →
        dailyStats (t :: transactions) refDay = dailyStats transactions refDay)
    ∧ (∀ p : Project, p.id = t.project_id →
        (computeProjectSummary p (t :: transactions)).profit
          = (computeProjectSummary p transactions).profit + signedAmount t)
    ∧ ((projects.map Project.id).Nodup → t.project_id ∈ projects.map Project.id →
        totalPortfolioBalance projects (t :: transactions)
          = totalPortfolioBalance projects transactions + signedAmount t) := by
  refine ⟨?_, ?_, ?_, ?_⟩
  · intro s hs
    rcases List.mem_map.mp hs with ⟨d, hd, rfl⟩
    exact ⟨dayStat_credits_eq transactions d, dayStat_debits_eq transactions d⟩
  · intro hnotin
    unfold dailyStats
    apply List.map_congr_left
    intro d hd
    exact dayStat_cons_skip transactions t d
      (fun hcontra => hnotin (by rw [hcontra]; exact hd))
  · intro p hp
    rw [profit_closed, profit_closed, List.map_cons, List.sum_cons,
      if_pos hp.symm, add_comm]
  · intro hnd hmem
    rw [balance_eq_double_sum, balance_eq_double_sum]
    have hA : (projects.map (fun p => (((t :: transactions)).map
          (fun u => if u.project_id = p.id then signedAmount u else 0)).sum)).sum
        = (projects.map (fun p => if t.project_id = p.id then signedAmount t else 0)).sum
          + (projects.map (fun p => (transactions.map
              (fun u => if u.project_id = p.id then signedAmount u else 0)).sum)).sum := by
      simp only [List.map_cons, List.sum_cons]
      exact sum_map_add projects
        (fun p => if t.project_id = p.id then signedAmount t else 0)
        (fun p => (transactions.map
          (fun u => if u.project_id = p.id then signedAmount u else 0)).sum)
    rw [hA, sum_map_ite_id projects t.project_id (signedAmount t) hnd hmem, add_comm]

/-- Witness for C10: a transaction dated 2020-01-01 leaves the 7-day window
of 2026-10-11 unchanged yet moves the portfolio balance by its signed
amount. -/
theorem C10_dailyStats_exact_date_match_witness :
    dailyStats [oldTransaction] 20737 = dailyStats [] 20737
    ∧ totalPortfolioBalance [sampleProject] [oldTransaction]
        = totalPortfolioBalance [sampleProject] [] + signedAmount oldTransaction := by
  have h := C10_dailyStats_exact_date_match [] 20737 oldTransaction [sampleProject]
  exact ⟨h.2.1 (by decide), h.2.2.2 (by decide) (by decide)⟩
